import Mathlib

/-!
Shallow embedding of `src/lamba_github_handler.py` (release-tracker).

The handler is an event-triggered pipeline: fetch a token from the secret
vault, filter the triggering key, fetch + parse + validate the JSON
submission, route it by tag, upsert a GitHub issue by title, link the issue
to a project board, and relocate the triggering file.  External collaborators
(S3, SNS, Secrets Manager, the GitHub REST/GraphQL API) are modelled as
explicit state threaded through the functions; each definition mirrors the
Python function of the same name.
-/

namespace ReleaseTracker

/-- Python `str.lower()` (ASCII case mapping, the only case the payloads
exercise). -/
def pyLower (s : String) : String := ⟨s.data.map Char.toLower⟩

/-- The characters Python `str.strip()` removes. -/
def pySpace (c : Char) : Bool :=
  c == ' ' || c == '\t' || c == '\n' || c == '\r' || c == '\x0b' || c == '\x0c'

/-- Python `str.strip()`: drop leading and trailing whitespace. -/
def pyStrip (s : String) : String :=
  ⟨((s.data.dropWhile pySpace).reverse.dropWhile pySpace).reverse⟩

/-- Python `str.startswith(pre)`. -/
def pyStartsWith (s pre : String) : Bool := pre.data.isPrefixOf s.data

/-- Python `str.endswith(suf)`. -/
def pyEndsWith (s suf : String) : Bool := suf.data.isSuffixOf s.data

/-- A parsed JSON value (the result of `json.loads`).  Arrays and objects are
encoded as right-nested chains (`arrCons`/`objCons`) so that decidable
equality can be derived.  An `objCons` chain represents a Python `dict`
produced by `json.loads`, so its keys are unique and lookup returns the
first (= only) binding for a key. -/
inductive JVal where
  | str : String → JVal
  | num : Int → JVal
  | bool : Bool → JVal
  | null : JVal
  | arrNil : JVal
  | arrCons : JVal → JVal → JVal
  | objNil : JVal
  | objCons : String → JVal → JVal → JVal
deriving DecidableEq

/-- Python truthiness of a parsed JSON value (`bool(v)`): empty string,
zero, `False`, `None`, empty list and empty dict are falsy, everything else
truthy.  Used by `validate`, whose test is `not data[field]`. -/
def JVal.truthy : JVal → Bool
  | .str s => !(s == "")
  | .num n => !(n == 0)
  | .bool b => b
  | .null => false
  | .arrNil => false
  | .arrCons _ _ => true
  | .objNil => false
  | .objCons _ _ _ => true

/-- Dictionary lookup `data[field]` / `field in data` on a JSON object;
`none` when the value is not an object or the key is absent. -/
def JVal.get? : JVal → String → Option JVal
  | .objCons k v rest, f => if k = f then some v else rest.get? f
  | _, _ => none

/-- Python `str()`/f-string rendering of a parsed JSON value, as used when a
payload field is interpolated into a message.  Only the string case is
reached by the pipeline on schema-conforming submissions; the rendering of
composite values is abbreviated (the exact Python `repr` text is not
reproduced, and no claim inspects it). -/
def pyStr : JVal → String
  | .str s => s
  | .num n => toString n
  | .bool true => "True"
  | .bool false => "False"
  | .null => "None"
  | .arrNil => "[]"
  | .arrCons _ _ => "[...]"
  | .objNil => "\x7b\x7d"
  | .objCons _ _ _ => "\x7b...\x7d"

/-- A GitHub issue as far as the handler observes it: `number` and `node_id`
are assigned by the tracker; `title`, `labels` come from the payload
(dynamically typed in the source, hence `JVal`), `body` is the rendered
markdown string, `milestone` the milestone number. -/
structure Issue where
  number : Nat
  node_id : Nat
  title : JVal
  body : String
  labels : List JVal
  milestone : Nat
deriving DecidableEq

/-- A GitHub milestone: a number assigned by the tracker and the title it
was created with. -/
structure Milestone where
  number : Nat
  title : JVal
deriving DecidableEq

/-- The tracker-side state of one repository.  `issues` is ordered most
recent first (GitHub lists issues newest-first, and a freshly created issue
becomes the head).  The `next*` counters model the tracker assigning fresh
numbers/node ids on creation. -/
structure RepoState where
  issues : List Issue
  milestones : List Milestone
  nextIssueNumber : Nat
  nextMilestoneNumber : Nat
  nextNodeId : Nat
deriving DecidableEq

/-- A repository with no issues or milestones; GitHub numbering starts at 1. -/
def emptyRepoState : RepoState := ⟨[], [], 1, 1, 1⟩

/-- `find_existing_issue_by_title`: one listing call
(`GET /issues?state=all&per_page=100`, i.e. the up-to-100 most recent
issues, no deeper pagination), scanned in order for the first issue whose
title equals `title`; returns its `number`, else `None`. -/
def find_existing_issue_by_title (st : RepoState) (title : JVal) : Option Nat :=
  ((st.issues.take 100).find? (fun i => i.title == title)).map Issue.number

/-- `get_or_create_milestone`: list all milestones (`state=all`), return the
number of the first whose title equals `title`; otherwise `POST` a new
milestone with that title and return its fresh number. -/
def get_or_create_milestone (st : RepoState) (title : JVal) : Nat × RepoState :=
  match st.milestones.find? (fun m => m.title == title) with
  | some m => (m.number, st)
  | none =>
    let n := st.nextMilestoneNumber
    (n, { st with milestones := ⟨n, title⟩ :: st.milestones,
                  nextMilestoneNumber := n + 1 })

/-- `create_issue`: resolve the milestone, then `POST /issues` with title,
body, labels and milestone; the tracker assigns a fresh number and node id
and the new issue becomes the most recent.  Returns `(node_id, number)` in
the source's order. -/
def create_issue (st : RepoState) (title : JVal) (body : String)
    (labels : List JVal) (milestone_title : JVal) : (Nat × Nat) × RepoState :=
  let p := get_or_create_milestone st milestone_title
  let st1 := p.2
  let num := st1.nextIssueNumber
  let nid := st1.nextNodeId
  ((nid, num),
   { st1 with issues := ⟨num, nid, title, body, labels, p.1⟩ :: st1.issues,
              nextIssueNumber := num + 1,
              nextNodeId := nid + 1 })

/-- `update_issue`: resolve the milestone, then `PATCH /issues/{number}`
replacing body, labels and milestone wholesale; returns the issue's
`node_id`.  A `PATCH` to a number the repository does not have fails at the
tracker (HTTP error), modelled as `none`. -/
def update_issue (st : RepoState) (issue_number : Nat) (body : String)
    (labels : List JVal) (milestone_title : JVal) : Option Nat × RepoState :=
  let p := get_or_create_milestone st milestone_title
  let st1 := p.2
  match st1.issues.find? (fun i => i.number == issue_number) with
  | none => (none, st1)
  | some i =>
    (some i.node_id,
     { st1 with issues := st1.issues.map (fun j =>
         if j.number == issue_number
         then { j with body := body, labels := labels, milestone := p.1 }
         else j) })

/-- `process_github_issue`: find an existing issue by exact title; if the
found number is truthy (Python `if issue_number:`), update it, else create a
new issue.  Returns `(issue_number, node_id)`; `none` models the uncaught
tracker error of the update path. -/
def process_github_issue (st : RepoState) (title : JVal) (body : String)
    (labels : List JVal) (milestone_title : JVal) :
    Option (Nat × Nat) × RepoState :=
  match find_existing_issue_by_title st title with
  | some n =>
    if n != 0 then
      match update_issue st n body labels milestone_title with
      | (some nid, st1) => (some (n, nid), st1)
      | (none, st1) => (none, st1)
    else
      let p := create_issue st title body labels milestone_title
      (some (p.1.2, p.1.1), p.2)
  | none =>
    let p := create_issue st title body labels milestone_title
    (some (p.1.2, p.1.1), p.2)

/-- `add_issue_to_project`'s error check on the GraphQL response body:
`if "errors" in result: raise Exception(f"GraphQL error: ...")`.  The raise
triggers on mere presence of the `errors` key, regardless of transport
status; absence of the key is success. -/
def add_issue_to_project_check (result : JVal) : Except String Unit :=
  match result.get? "errors" with
  | some errs => .error ("GraphQL error: " ++ pyStr errs)
  | none => .ok ()

/-- The content of a stored S3 object, abstracted to its JSON parse outcome
(`fetch_s3_json` reads the bytes, UTF-8 decodes and `json.loads`s them; the
raw bytes themselves are never used otherwise, so an object is either a
well-formed document with value `v` or malformed text whose parse raises
with message `e`). -/
inductive S3Doc where
  | parsed : JVal → S3Doc
  | malformed : String → S3Doc
deriving DecidableEq

/-- The objects of the triggering bucket, keyed by object key. -/
abbrev S3Objects := List (String × S3Doc)

/-- `key.split('/')[-1]`: the basename of an object key (everything after
the last `/`, or the whole key when it has no `/`). -/
def basename (key : String) : String :=
  ⟨(key.data.reverse.takeWhile (fun c => c != '/')).reverse⟩

/-- `s3.copy_object`: write (or overwrite) the object at `key`. -/
def s3write (objs : S3Objects) (key : String) (c : S3Doc) : S3Objects :=
  (key, c) :: objs.filter (fun p => p.1 != key)

/-- `s3.delete_object`: remove the object at `key`. -/
def s3delete (objs : S3Objects) (key : String) : S3Objects :=
  objs.filter (fun p => p.1 != key)

/-- `move_s3_file`: copy the object to `dest_folder + basename(key)`, then
delete the original (copy-then-delete, not atomic).  `s3.copy_object`
raises a ClientError when the source key is absent; `none` models that
raise, which the caller (`lambda_handler`) never catches. -/
def move_s3_file (objs : S3Objects) (key dest_folder : String) :
    Option S3Objects :=
  match objs.lookup key with
  | none => none
  | some content =>
    some (s3delete (s3write objs (dest_folder ++ basename key) content) key)

/-- `fetch_s3_json`: `s3.get_object` (raises on a missing key) followed by
`json.loads` (raises on malformed content). -/
def fetch_s3_json (objs : S3Objects) (key : String) : Except String JVal :=
  match objs.lookup key with
  | none => .error ("NoSuchKey: " ++ key)
  | some (.parsed v) => .ok v
  | some (.malformed e) => .error e

/-- `get_github_token`: fetch the secret, wrapping any vault failure in the
source's message prefix. -/
def get_github_token (vault : Except String String) : Except String String :=
  match vault with
  | .ok s => .ok s
  | .error e => .error ("Failed to fetch GITHUB_TOKEN from Secrets Manager: " ++ e)

/-- The six required payload fields, in the order `validate` checks them. -/
def required : List String :=
  ["title", "intent_goal", "value", "target_quarter", "author", "tag"]

/-- `field in data and data[field]` truthy: the per-field test of
`validate` (negated in the source's `if field not in data or not
data[field]`). -/
def fieldPresentTruthy (data : JVal) (field : String) : Bool :=
  match data.get? field with
  | some v => v.truthy
  | none => false

/-- The loop of `validate` over a list of field names: raises
`Missing or empty field: f` at the first field `f` that is absent or falsy. -/
def validateFields (data : JVal) : List String → Except String Unit
  | [] => .ok ()
  | f :: rest =>
    if fieldPresentTruthy data f then validateFields data rest
    else .error ("Missing or empty field: " ++ f)

/-- `validate`: check the six required fields in order, all-or-nothing. -/
def validate (data : JVal) : Except String Unit := validateFields data required

/-- The try-block of lines 55-56: fetch and parse the object, then validate
it; the first raised error is the one the except-branch reports. -/
def fetchAndValidate (objs : S3Objects) (key : String) : Except String JVal :=
  match fetch_s3_json objs key with
  | .error e => .error e
  | .ok b =>
    match validate b with
    | .error e => .error e
    | .ok _ => .ok b

/-- `build_issue_body`: the markdown body rendered from `intent_goal` and
`value`, with the f-string's leading/trailing newlines stripped. -/
def build_issue_body (data : JVal) : String :=
  pyStrip ("\n## 🎯 **Goal**\n" ++ pyStr ((data.get? "intent_goal").getD .null) ++
   "\n\n## 💎 **Value**\n" ++ pyStr ((data.get? "value").getD .null) ++ "\n")

/-- One routing target: `{owner, repo, project_id}`. -/
structure Target where
  owner : String
  repo : String
  project_id : String
deriving DecidableEq

/-- The deployment environment variables the script reads at start. -/
structure Env where
  sns_topic_arn : String
  github_owner : String
  broadband_repo : String
  broadband_project_id : String
  video_repo : String
  video_project_id : String
deriving DecidableEq

/-- The static `ROUTING` table: exactly the tags `broadband` and `video`,
each mapped to the owner/repo/project triple from the environment. -/
def ROUTING (env : Env) : List (String × Target) :=
  [("broadband", ⟨env.github_owner, env.broadband_repo, env.broadband_project_id⟩),
   ("video", ⟨env.github_owner, env.video_repo, env.video_project_id⟩)]

/-- The (bucket, key) extracted from the first record of the triggering
event. -/
structure S3Event where
  bucket : String
  key : String
deriving DecidableEq

/-- Tracker state across repositories: per (owner, repo) the repository's
issues and milestones.  A pair absent from the list is a repository the
handler has not touched, with unknown-but-empty modelled content. -/
abbrev TrackerState := List ((String × String) × RepoState)

/-- The state of one repository inside the tracker. -/
def getRepoState (trk : TrackerState) (k : String × String) : RepoState :=
  (trk.lookup k).getD emptyRepoState

/-- Replace the state of one repository inside the tracker. -/
def setRepoState (trk : TrackerState) (k : String × String) (st : RepoState) :
    TrackerState :=
  (k, st) :: trk.filter (fun p => p.1 != k)

deriving instance DecidableEq for Except

/-- The external world one invocation runs against: the vault's answer for
the token secret, the bucket's objects, the tracker's state, the body the
GraphQL endpoint would answer to the project-link mutation, and the SNS
notifications published so far (most recent first). -/
structure World where
  secret : Except String String
  s3objects : S3Objects
  tracker : TrackerState
  graphqlResponse : JVal
  notifications : List String
deriving DecidableEq

/-- The value `lambda_handler` returns.  `crashed` models an exception that
escapes the handler uncaught (e.g. the `AttributeError` of
`body["tag"].lower()` on a non-string tag, raised outside every
try-block). -/
inductive LResult where
  | failed : String → LResult
  | skipped : LResult
  | invalid : String → LResult
  | success : String → Nat → LResult
  | crashed : String → LResult
deriving DecidableEq

/-- `lambda_handler`: the full pipeline of lines 38-90, as a function from
the external world (and event) to the returned status and the new world.
The `move_s3_file` calls sit outside every try-block, so when the copy
raises (missing source) the exception escapes the handler: `crashed`, with
the world as it was at the raise (notification already published). -/
def lambda_handler (env : Env) (w : World) (ev : S3Event) : LResult × World :=
  match get_github_token w.secret with
  | .error e => (.failed e, w)
  | .ok _token =>
    let key := ev.key
    if !(pyStartsWith key "Input/") || !(pyEndsWith key ".json") then
      (.skipped, w)
    else
      match fetchAndValidate w.s3objects key with
      | .error e =>
        let w := { w with
          notifications := ("Invalid JSON file: " ++ key ++ "\nError: " ++ e)
            :: w.notifications }
        match move_s3_file w.s3objects key "Invalid/" with
        | none => (.crashed "ClientError: copy_object source missing", w)
        | some objs2 => (.invalid e, { w with s3objects := objs2 })
      | .ok body =>
        match body.get? "tag" with
        | some (.str rawTag) =>
          let tag := pyStrip (pyLower rawTag)
          match (ROUTING env).lookup tag with
          | none =>
            let msg := "Unsupported tag: " ++ tag
            let w := { w with
              notifications := ("Invalid tag in JSON file: " ++ key ++ "\nError: " ++ msg)
                :: w.notifications }
            match move_s3_file w.s3objects key "Invalid/" with
            | none => (.crashed "ClientError: copy_object source missing", w)
            | some objs2 => (.invalid msg, { w with s3objects := objs2 })
          | some target =>
            let owner := target.owner
            let repo := target.repo
            let title := (body.get? "title").getD .null
            let issue_body := build_issue_body body
            let labels : List JVal := [(body.get? "author").getD .null, .str tag]
            let milestone_title := (body.get? "target_quarter").getD .null
            let st := getRepoState w.tracker (owner, repo)
            match process_github_issue st title issue_body labels milestone_title with
            | (none, st1) =>
              let e := "tracker API error"
              let w := { w with tracker := setRepoState w.tracker (owner, repo) st1 }
              let w := { w with
                notifications := ("Error processing file: " ++ key ++ "\nError: " ++ e)
                  :: w.notifications }
              match move_s3_file w.s3objects key "Invalid/" with
              | none => (.crashed "ClientError: copy_object source missing", w)
              | some objs2 => (.failed e, { w with s3objects := objs2 })
            | (some (issue_number, node_id), st1) =>
              let w := { w with tracker := setRepoState w.tracker (owner, repo) st1 }
              match add_issue_to_project_check w.graphqlResponse with
              | .error e =>
                let w := { w with
                  notifications := ("Error processing file: " ++ key ++ "\nError: " ++ e)
                    :: w.notifications }
                match move_s3_file w.s3objects key "Invalid/" with
                | none => (.crashed "ClientError: copy_object source missing", w)
                | some objs2 => (.failed e, { w with s3objects := objs2 })
              | .ok _ =>
                have _ := node_id
                match move_s3_file w.s3objects key "Processed/" with
                | none => (.crashed "ClientError: copy_object source missing", w)
                | some objs2 =>
                  (.success (owner ++ "/" ++ repo) issue_number,
                   { w with s3objects := objs2 })
        | _ => (.crashed "AttributeError", w)

/-! ### Counting helpers and tracker invariants -/

/-- Number of milestones of the repository carrying exactly this title. -/
def countMilestonesTitled (st : RepoState) (t : JVal) : Nat :=
  st.milestones.countP (fun m => m.title == t)

/-- Number of issues of the repository carrying exactly this title. -/
def countIssuesTitled (st : RepoState) (t : JVal) : Nat :=
  st.issues.countP (fun i => i.title == t)

/-- Tracker-side invariants GitHub guarantees for a repository: issue
numbers are positive (numbering starts at 1), fresh numbers are positive,
and no two issues share a number. -/
def RepoWF (st : RepoState) : Prop :=
  (∀ i ∈ st.issues, 0 < i.number) ∧ 0 < st.nextIssueNumber ∧
    (st.issues.map Issue.number).Nodup

/-! ### Concrete sample data used by the witnesses -/

/-- The reference environment used by the concrete witnesses. -/
def envW : Env := ⟨"topic", "acme", "bb-repo", "PVT_bb", "video-repo", "PVT_vid"⟩

/-- A submission whose `value` field is the empty string, used as the C2
witness input. -/
def submMissing : JVal :=
  .objCons "title" (.str "T")
    (.objCons "intent_goal" (.str "G")
      (.objCons "value" (.str "")
        (.objCons "target_quarter" (.str "Q3")
          (.objCons "author" (.str "alice")
            (.objCons "tag" (.str "video") .objNil)))))

/-- A submission with the unknown tag `" Gaming "`, used as the C3
witness input. -/
def submGaming : JVal :=
  .objCons "title" (.str "T")
    (.objCons "intent_goal" (.str "G")
      (.objCons "value" (.str "V")
        (.objCons "target_quarter" (.str "Q3")
          (.objCons "author" (.str "alice")
            (.objCons "tag" (.str " Gaming ") .objNil)))))

/-- The spec's reference submission for the end-to-end run. -/
def submDarkMode : JVal :=
  .objCons "title" (.str "Add dark mode")
    (.objCons "intent_goal" (.str "Reduce eye strain")
      (.objCons "value" (.str "Improves retention")
        (.objCons "target_quarter" (.str "Q3")
          (.objCons "author" (.str "alice")
            (.objCons "tag" (.str " Video ") .objNil)))))

/-- The world of the C7 run: token available, the reference submission at
`Input/x.json`, a fresh tracker, an error-free GraphQL response. -/
def w7 : World :=
  ⟨.ok "tok", [("Input/x.json", .parsed submDarkMode)], [],
   .objCons "data" .null .objNil, []⟩

/-- The triggering event of the C7 run. -/
def ev7 : S3Event := ⟨"bkt", "Input/x.json"⟩

/-- The world of the C4 witness: like `w7` but the GraphQL endpoint answers
with a non-empty `errors` array. -/
def w4 : World :=
  ⟨.ok "tok", [("Input/x.json", .parsed submDarkMode)], [],
   .objCons "errors" (.arrCons (.str "boom") .arrNil) .objNil, []⟩

/-! ### Helper lemmas -/

theorem lookup_filter_bne {α β : Type} [BEq α] [LawfulBEq α]
    (l : List (α × β)) (k : α) :
    (l.filter (fun p => p.1 != k)).lookup k = none := by
  rw [List.lookup_eq_none_iff]
  intro p hp
  have h := (List.mem_filter.mp hp).2
  simp only [bne_iff_ne, ne_eq] at h ⊢
  exact Ne.symm h

theorem lookup_filter_other {α β : Type} [BEq α] [LawfulBEq α]
    (l : List (α × β)) (k k' : α) (hne : k' ≠ k) :
    (l.filter (fun p => p.1 != k)).lookup k' = l.lookup k' := by
  induction l with
  | nil => simp
  | cons a rest ih =>
    rw [List.filter_cons]
    by_cases h : a.1 = k
    · rw [if_neg (by simp [h]), ih, List.lookup_cons]
      have hk : (k' == a.1) = false := beq_eq_false_iff_ne.mpr (by rw [h]; exact hne)
      rw [hk]
    · rw [if_pos (by simpa using h), List.lookup_cons, List.lookup_cons]
      cases hk : k' == a.1 <;> simp [ih]

/-- When the source key is present the copy does not raise:
`move_s3_file` succeeds with the copy-then-delete result. -/
theorem move_s3_file_some (objs : S3Objects) (key dest : String)
    {c : S3Doc} (hc : objs.lookup key = some c) :
    move_s3_file objs key dest =
      some (s3delete (s3write objs (dest ++ basename key) c) key) := by
  simp only [move_s3_file, hc]

/-- After a successful move, the original key is gone (copy, then delete). -/
theorem moved_lookup_gone (objs : S3Objects) (key newkey : String)
    (c : S3Doc) :
    (s3delete (s3write objs newkey c) key).lookup key = none := by
  simp only [s3delete]
  exact lookup_filter_bne _ _

/-- After a successful move, the destination key holds the moved content,
provided the destination differs from the source key. -/
theorem moved_lookup_new (objs : S3Objects) (key newkey : String)
    (c : S3Doc) (hne : newkey ≠ key) :
    (s3delete (s3write objs newkey c) key).lookup newkey = some c := by
  simp only [s3delete, s3write]
  rw [List.filter_cons]
  have hcond : (((newkey, c) : String × S3Doc).1 != key) = true := by
    simp only [bne_iff_ne, ne_eq]
    exact hne
  rw [if_pos hcond]
  exact List.lookup_cons_self

/-- A string starting with `Invalid/` never satisfies the handler's
`Input/` prefix test (the two prefixes differ at their third character). -/
theorem pyStartsWith_invalid_eq_false (t : String) :
    pyStartsWith ("Invalid/" ++ t) "Input/" = false := rfl

/-- A key accepted by the ingress filter is never the destination the
failure branch moves it to. -/
theorem input_key_ne_invalid_dest (key t : String)
    (h : pyStartsWith key "Input/" = true) : "Invalid/" ++ t ≠ key := by
  intro he
  rw [← he] at h
  rw [pyStartsWith_invalid_eq_false t] at h
  exact Bool.false_ne_true h

/-- Reading back the repository just written into the tracker state. -/
theorem getRepoState_set (trk : TrackerState) (k : String × String)
    (st : RepoState) : getRepoState (setRepoState trk k st) k = st := by
  unfold getRepoState setRepoState
  rw [List.lookup_cons]
  simp

/-! ### C5 and C8: ingress filter and secret failure -/

/-- C5: for every triggering key that does not both start with `Input/` and
end with `.json`, the pipeline returns `skipped` and changes nothing: no
object fetch, no tracker call, no notification, no relocation — the world
other than the already-performed secret fetch is returned unchanged. -/
theorem C5_filter_skips (env : Env) (w : World) (ev : S3Event) (tok : String)
    (hsec : w.secret = .ok tok)
    (hkey : pyStartsWith ev.key "Input/" = false ∨ pyEndsWith ev.key ".json" = false) :
    lambda_handler env w ev = (.skipped, w) := by
  unfold lambda_handler get_github_token
  rw [hsec]
  rcases hkey with h | h <;> simp [h]

theorem C5_witness :
    lambda_handler ⟨"t", "o", "b", "pb", "v", "pv"⟩
        ⟨.ok "tok", [("notes.txt", .malformed "junk")], [], .null, []⟩
        ⟨"bkt", "notes.txt"⟩ =
      (.skipped, ⟨.ok "tok", [("notes.txt", .malformed "junk")], [], .null, []⟩) :=
  C5_filter_skips _ _ _ "tok" rfl (Or.inl (by decide))

/-- C8: when the secret fetch fails, the invocation aborts before touching
anything: the wrapped vault error is the returned failure status, and the
world — files, tracker, notifications — is returned unchanged, for every
triggering event (the filter is never even consulted). -/
theorem C8_secret_failure_aborts (env : Env) (w : World) (ev : S3Event)
    (e : String) (hsec : w.secret = .error e) :
    lambda_handler env w ev =
      (.failed ("Failed to fetch GITHUB_TOKEN from Secrets Manager: " ++ e), w) := by
  unfold lambda_handler get_github_token
  rw [hsec]

theorem C8_witness :
    lambda_handler ⟨"t", "o", "b", "pb", "v", "pv"⟩
        ⟨.error "vault down", [("Input/x.json", .malformed "junk")], [], .null, []⟩
        ⟨"bkt", "Input/x.json"⟩ =
      (.failed "Failed to fetch GITHUB_TOKEN from Secrets Manager: vault down",
       ⟨.error "vault down", [("Input/x.json", .malformed "junk")], [], .null, []⟩) :=
  C8_secret_failure_aborts _ _ _ "vault down" rfl

/-! ### Validation lemmas -/

/-- `validate`'s loop reports exactly the first field (in list order) that
is absent or falsy. -/
theorem validateFields_error_of_find? (data : JVal) (l : List String) (f : String)
    (h : l.find? (fun g => !fieldPresentTruthy data g) = some f) :
    validateFields data l = .error ("Missing or empty field: " ++ f) := by
  induction l with
  | nil => simp at h
  | cons a rest ih =>
    by_cases ha : fieldPresentTruthy data a = true
    · rw [List.find?_cons_of_neg _ (by simp [ha])] at h
      simp only [validateFields, if_pos ha]
      exact ih h
    · rw [List.find?_cons_of_pos _ (by simp [ha])] at h
      injection h with h
      subst h
      simp only [validateFields]
      rw [if_neg ha]

/-- `validate`'s loop succeeds when every listed field is present and
truthy. -/
theorem validateFields_ok_of_all (data : JVal) (l : List String)
    (h : ∀ g ∈ l, fieldPresentTruthy data g = true) :
    validateFields data l = .ok () := by
  induction l with
  | nil => rfl
  | cons a rest ih =>
    simp only [validateFields, if_pos (h a (by simp))]
    exact ih (fun g hg => h g (by simp [hg]))

/-! ### C2, C9, C3, C10: validation and routing failure branches -/

/-- C2: for every accepted submission object in which a required field is
absent or the empty string, the pipeline returns `invalid`, publishes one
notification, and relocates the file to `Invalid/` under the same basename;
the reported reason names the first failing field in required-field order
(`hf` says `f` is that first field), so no later field is reported. -/
theorem C2_required_field_missing (env : Env) (w : World) (ev : S3Event)
    (tok : String) (data : JVal) (f : String)
    (hsec : w.secret = .ok tok)
    (hstart : pyStartsWith ev.key "Input/" = true)
    (hend : pyEndsWith ev.key ".json" = true)
    (hobj : w.s3objects.lookup ev.key = some (.parsed data))
    (hf : required.find? (fun g => !fieldPresentTruthy data g) = some f)
    (_hbad : data.get? f = none ∨ data.get? f = some (.str "")) :
    ∃ w', lambda_handler env w ev =
        (.invalid ("Missing or empty field: " ++ f), w') ∧
      w'.notifications =
        ("Invalid JSON file: " ++ ev.key ++ "\nError: " ++
          ("Missing or empty field: " ++ f)) :: w.notifications ∧
      w'.s3objects.lookup ("Invalid/" ++ basename ev.key) = some (.parsed data) ∧
      w'.s3objects.lookup ev.key = none ∧
      w'.tracker = w.tracker := by
  have hval := validateFields_error_of_find? data required f hf
  have hfv : fetchAndValidate w.s3objects ev.key =
      .error ("Missing or empty field: " ++ f) := by
    simp only [fetchAndValidate, fetch_s3_json, hobj]
    rw [show validate data = _ from hval]
  have hmv := move_s3_file_some w.s3objects ev.key "Invalid/" hobj
  have hrun : lambda_handler env w ev =
      (.invalid ("Missing or empty field: " ++ f),
       { w with
         notifications :=
           ("Invalid JSON file: " ++ ev.key ++ "\nError: " ++
             ("Missing or empty field: " ++ f)) :: w.notifications,
         s3objects := s3delete (s3write w.s3objects
           ("Invalid/" ++ basename ev.key) (.parsed data)) ev.key }) := by
    simp only [lambda_handler, get_github_token, hsec, hstart, hend, hfv, hmv,
      Bool.not_true, Bool.or_self]
    rw [if_neg Bool.false_ne_true]
  rw [hrun]
  refine ⟨_, rfl, rfl, ?_, ?_, rfl⟩
  · exact moved_lookup_new _ _ _ _ (input_key_ne_invalid_dest ev.key _ hstart)
  · exact moved_lookup_gone _ _ _ _

theorem C2_witness :
    ∃ w', lambda_handler envW
        ⟨.ok "tok", [("Input/x.json", .parsed submMissing)], [], .null, []⟩
        ⟨"bkt", "Input/x.json"⟩ =
      (.invalid ("Missing or empty field: " ++ "value"), w') ∧
      w'.notifications =
        ("Invalid JSON file: " ++ "Input/x.json" ++ "\nError: " ++
          ("Missing or empty field: " ++ "value")) :: [] ∧
      w'.s3objects.lookup ("Invalid/" ++ basename "Input/x.json") =
        some (.parsed submMissing) ∧
      w'.s3objects.lookup "Input/x.json" = none ∧
      w'.tracker = [] :=
  C2_required_field_missing envW _ _ "tok" submMissing "value" rfl (by decide)
    (by decide) (by decide) (by decide) (Or.inr (by decide))

/-- C9: `validate` rejects exactly the falsy values: the first required
field bound to a falsy value (absent, `""`, `null`, `false`, `0`, `[]`,
`{}`) is the one named in the error; a submission whose required fields are
all present and truthy — whatever their type — passes; and the concrete
truthiness facts the claim lists. -/
theorem C9_validate_truthiness (data : JVal) (f : String) :
    (required.find? (fun g => !fieldPresentTruthy data g) = some f →
       validate data = .error ("Missing or empty field: " ++ f)) ∧
    ((∃ g ∈ required, fieldPresentTruthy data g = false) →
       ∃ g, validate data = .error ("Missing or empty field: " ++ g) ∧
         fieldPresentTruthy data g = false) ∧
    ((∀ g ∈ required, fieldPresentTruthy data g = true) →
       validate data = .ok ()) ∧
    (JVal.truthy .null = false ∧ JVal.truthy (.bool false) = false ∧
     JVal.truthy (.num 0) = false ∧ JVal.truthy .arrNil = false ∧
     JVal.truthy .objNil = false ∧ JVal.truthy (.str "") = false ∧
     JVal.truthy (.num 5) = true ∧
     JVal.truthy (.arrCons (.num 1) .arrNil) = true ∧
     JVal.truthy (.objCons "k" .null .objNil) = true) := by
  refine ⟨fun h => validateFields_error_of_find? data required f h, ?_,
    fun h => validateFields_ok_of_all data required h, by decide⟩
  rintro ⟨g, hg, hgf⟩
  have hsome : (required.find? (fun g => !fieldPresentTruthy data g)).isSome :=
    List.find?_isSome.mpr ⟨g, hg, by simp [hgf]⟩
  cases hfind : required.find? (fun g => !fieldPresentTruthy data g) with
  | none => rw [hfind] at hsome; simp at hsome
  | some g' =>
    have pf := List.find?_some hfind
    exact ⟨g', validateFields_error_of_find? data required g' hfind,
      by simpa using pf⟩

theorem C9_witness :
    validate (.objCons "title" (.str "T")
      (.objCons "intent_goal" (.num 0) .objNil)) =
      .error ("Missing or empty field: " ++ "intent_goal") :=
  (C9_validate_truthiness
    (.objCons "title" (.str "T") (.objCons "intent_goal" (.num 0) .objNil))
    "intent_goal").1 (by decide)

/-- C3: for every valid submission whose tag — lowercased and stripped —
is not a key of the routing table, the pipeline returns `invalid` with an
error naming the normalized tag, publishes one notification, relocates the
file to `Invalid/`, and makes no issue-tracker call (the tracker state is
returned unchanged). -/
theorem C3_unknown_tag (env : Env) (w : World) (ev : S3Event)
    (tok : String) (data : JVal) (s : String)
    (hsec : w.secret = .ok tok)
    (hstart : pyStartsWith ev.key "Input/" = true)
    (hend : pyEndsWith ev.key ".json" = true)
    (hobj : w.s3objects.lookup ev.key = some (.parsed data))
    (hval : validate data = .ok ())
    (htag : data.get? "tag" = some (.str s))
    (hroute : (ROUTING env).lookup (pyStrip (pyLower s)) = none) :
    ∃ w', lambda_handler env w ev =
        (.invalid ("Unsupported tag: " ++ pyStrip (pyLower s)), w') ∧
      w'.notifications =
        ("Invalid tag in JSON file: " ++ ev.key ++ "\nError: " ++
          ("Unsupported tag: " ++ pyStrip (pyLower s))) :: w.notifications ∧
      w'.s3objects.lookup ("Invalid/" ++ basename ev.key) = some (.parsed data) ∧
      w'.s3objects.lookup ev.key = none ∧
      w'.tracker = w.tracker := by
  have hfv : fetchAndValidate w.s3objects ev.key = .ok data := by
    simp only [fetchAndValidate, fetch_s3_json, hobj]
    rw [show validate data = _ from hval]
  have hmv := move_s3_file_some w.s3objects ev.key "Invalid/" hobj
  have hrun : lambda_handler env w ev =
      (.invalid ("Unsupported tag: " ++ pyStrip (pyLower s)),
       { w with
         notifications :=
           ("Invalid tag in JSON file: " ++ ev.key ++ "\nError: " ++
             ("Unsupported tag: " ++ pyStrip (pyLower s))) :: w.notifications,
         s3objects := s3delete (s3write w.s3objects
           ("Invalid/" ++ basename ev.key) (.parsed data)) ev.key }) := by
    simp only [lambda_handler, get_github_token, hsec, hstart, hend, hfv, htag,
      hroute, hmv, Bool.not_true, Bool.or_self]
    rw [if_neg Bool.false_ne_true]
  rw [hrun]
  refine ⟨_, rfl, rfl, ?_, ?_, rfl⟩
  · exact moved_lookup_new _ _ _ _ (input_key_ne_invalid_dest ev.key _ hstart)
  · exact moved_lookup_gone _ _ _ _

theorem C3_witness :
    ∃ w', lambda_handler envW
        ⟨.ok "tok", [("Input/y.json", .parsed submGaming)], [], .null, []⟩
        ⟨"bkt", "Input/y.json"⟩ =
      (.invalid ("Unsupported tag: " ++ pyStrip (pyLower " Gaming ")), w') ∧
      w'.notifications =
        ("Invalid tag in JSON file: " ++ "Input/y.json" ++ "\nError: " ++
          ("Unsupported tag: " ++ pyStrip (pyLower " Gaming "))) :: [] ∧
      w'.s3objects.lookup ("Invalid/" ++ basename "Input/y.json") =
        some (.parsed submGaming) ∧
      w'.s3objects.lookup "Input/y.json" = none ∧
      w'.tracker = [] :=
  C3_unknown_tag envW _ _ "tok" submGaming " Gaming " rfl (by decide) (by decide)
    (by decide) (by decide) (by decide) (by decide)

/-- C10: on each failure branch that precedes the upsert — the triggering
object parses to malformed JSON, a required field is missing or empty, or
the tag is unknown (the object being present in the bucket in each case, as
those branches presuppose) — the invocation returns `invalid` and the
tracker state is completely unchanged: no listing, create, update,
milestone or project-link call happened. -/
theorem C10_tracker_untouched_on_early_failure (env : Env) (w : World)
    (ev : S3Event) (tok : String)
    (hsec : w.secret = .ok tok)
    (hstart : pyStartsWith ev.key "Input/" = true)
    (hend : pyEndsWith ev.key ".json" = true)
    (hfail :
      (∃ e, w.s3objects.lookup ev.key = some (.malformed e)) ∨
      (∃ data e, w.s3objects.lookup ev.key = some (.parsed data) ∧
         validate data = .error e) ∨
      (∃ data s, w.s3objects.lookup ev.key = some (.parsed data) ∧
         validate data = .ok () ∧ data.get? "tag" = some (.str s) ∧
         (ROUTING env).lookup (pyStrip (pyLower s)) = none)) :
    ∃ e w', lambda_handler env w ev = (.invalid e, w') ∧
      w'.tracker = w.tracker := by
  rcases hfail with ⟨e, hobj⟩ | ⟨data, e, hobj, hverr⟩ | ⟨data, s, hobj, hval, htag, hroute⟩
  · have hfv : fetchAndValidate w.s3objects ev.key = .error e := by
      simp only [fetchAndValidate, fetch_s3_json, hobj]
    have hmv := move_s3_file_some w.s3objects ev.key "Invalid/" hobj
    refine ⟨e,
      { w with
        notifications := ("Invalid JSON file: " ++ ev.key ++ "\nError: " ++ e)
          :: w.notifications,
        s3objects := s3delete (s3write w.s3objects
          ("Invalid/" ++ basename ev.key) (.malformed e)) ev.key }, ?_, rfl⟩
    simp only [lambda_handler, get_github_token, hsec, hstart, hend, hfv, hmv,
      Bool.not_true, Bool.or_self]
    rw [if_neg Bool.false_ne_true]
  · have hfv : fetchAndValidate w.s3objects ev.key = .error e := by
      simp only [fetchAndValidate, fetch_s3_json, hobj]
      rw [show validate data = _ from hverr]
    have hmv := move_s3_file_some w.s3objects ev.key "Invalid/" hobj
    refine ⟨e,
      { w with
        notifications := ("Invalid JSON file: " ++ ev.key ++ "\nError: " ++ e)
          :: w.notifications,
        s3objects := s3delete (s3write w.s3objects
          ("Invalid/" ++ basename ev.key) (.parsed data)) ev.key }, ?_, rfl⟩
    simp only [lambda_handler, get_github_token, hsec, hstart, hend, hfv, hmv,
      Bool.not_true, Bool.or_self]
    rw [if_neg Bool.false_ne_true]
  · have hfv : fetchAndValidate w.s3objects ev.key = .ok data := by
      simp only [fetchAndValidate, fetch_s3_json, hobj]
      rw [show validate data = _ from hval]
    have hmv := move_s3_file_some w.s3objects ev.key "Invalid/" hobj
    refine ⟨"Unsupported tag: " ++ pyStrip (pyLower s),
      { w with
        notifications :=
          ("Invalid tag in JSON file: " ++ ev.key ++ "\nError: " ++
            ("Unsupported tag: " ++ pyStrip (pyLower s))) :: w.notifications,
        s3objects := s3delete (s3write w.s3objects
          ("Invalid/" ++ basename ev.key) (.parsed data)) ev.key }, ?_, rfl⟩
    simp only [lambda_handler, get_github_token, hsec, hstart, hend, hfv, htag,
      hroute, hmv, Bool.not_true, Bool.or_self]
    rw [if_neg Bool.false_ne_true]

theorem C10_witness :
    ∃ e w', lambda_handler envW
        ⟨.ok "tok", [("Input/z.json", .malformed "Expecting value: line 1")],
         [(("acme", "video-repo"), emptyRepoState)], .null, []⟩
        ⟨"bkt", "Input/z.json"⟩ = (.invalid e, w') ∧
      w'.tracker = [(("acme", "video-repo"), emptyRepoState)] :=
  C10_tracker_untouched_on_early_failure envW _ _ "tok" rfl (by decide)
    (by decide) (Or.inl ⟨"Expecting value: line 1", by decide⟩)

/-! ### C6 and C1: milestone lookup-or-create and issue upsert -/

/-- C6: milestone lookup-or-create resolves by exact title over all of the
repository's milestones (any state): when a milestone with the title exists,
its number is returned and the state is completely unchanged (no creation);
when none exists, exactly one milestone with that title is created; and the
at-most-one-milestone-per-title invariant is preserved by every invocation,
so no sequence of sequential invocations ever creates two milestones with
an identical title in one repository. -/
theorem C6_milestone_lookup_or_create (st : RepoState) (t : JVal) :
    (∀ m, st.milestones.find? (fun x => x.title == t) = some m →
       get_or_create_milestone st t = (m.number, st)) ∧
    (st.milestones.find? (fun x => x.title == t) = none →
       (get_or_create_milestone st t).2.milestones =
         ⟨st.nextMilestoneNumber, t⟩ :: st.milestones) ∧
    (∀ u, countMilestonesTitled st u ≤ 1 →
       countMilestonesTitled (get_or_create_milestone st t).2 u ≤ 1) := by
  refine ⟨?_, ?_, ?_⟩
  · intro m hm
    simp only [get_or_create_milestone, hm]
  · intro hm
    simp only [get_or_create_milestone, hm]
  · intro u hu
    cases hm : st.milestones.find? (fun x => x.title == t) with
    | some m =>
      simpa only [get_or_create_milestone, hm] using hu
    | none =>
      have hcons : (get_or_create_milestone st t).2.milestones =
          ⟨st.nextMilestoneNumber, t⟩ :: st.milestones := by
        simp only [get_or_create_milestone, hm]
      unfold countMilestonesTitled at hu ⊢
      rw [hcons, List.countP_cons]
      by_cases ht : t = u
      · subst ht
        have h0 : st.milestones.countP (fun m => m.title == t) = 0 := by
          rw [List.countP_eq_zero]
          intro m hmem
          exact List.find?_eq_none.mp hm m hmem
        simp [h0]
      · have hne : ((Milestone.mk st.nextMilestoneNumber t).title == u) = false := by
          simpa using ht
        rw [hne]
        simpa using hu

theorem C6_witness :
    get_or_create_milestone ⟨[], [⟨7, .str "Q3"⟩], 1, 8, 1⟩ (.str "Q3") =
      (7, ⟨[], [⟨7, .str "Q3"⟩], 1, 8, 1⟩) :=
  (C6_milestone_lookup_or_create ⟨[], [⟨7, .str "Q3"⟩], 1, 8, 1⟩ (.str "Q3")).1
    ⟨7, .str "Q3"⟩ (by decide)

theorem get_or_create_milestone_preserves (st : RepoState) (t : JVal) :
    (get_or_create_milestone st t).2.issues = st.issues ∧
    (get_or_create_milestone st t).2.nextIssueNumber = st.nextIssueNumber ∧
    (get_or_create_milestone st t).2.nextNodeId = st.nextNodeId := by
  cases hm : st.milestones.find? (fun m => m.title == t) <;>
    simp [get_or_create_milestone, hm]

theorem find?_take_cons_of_pos {α : Type} {p : α → Bool} (a : α) (l : List α)
    (h : p a = true) : ((a :: l).take 100).find? p = some a := by
  rw [show (100 : Nat) = 99 + 1 from rfl, List.take_succ_cons]
  exact List.find?_cons_of_pos _ h

/-- Updating an issue the listing found (the first issue with its number)
patches it in place: same node id returned, no issue added or removed, and
every title count unchanged (the patch replaces body, labels and milestone
only). -/
theorem update_issue_found (st : RepoState) (i : Issue) (b : String)
    (labels : List JVal) (mt : JVal)
    (hfind : st.issues.find? (fun j => j.number == i.number) = some i) :
    ∃ st2, update_issue st i.number b labels mt = (some i.node_id, st2) ∧
      st2.issues.length = st.issues.length ∧
      ∀ u, countIssuesTitled st2 u = countIssuesTitled st u := by
  obtain ⟨hiss, hnum, hnid⟩ := get_or_create_milestone_preserves st mt
  simp only [update_issue, hiss]
  rw [hfind]
  refine ⟨_, rfl, by simp, ?_⟩
  intro u
  unfold countIssuesTitled
  simp only [List.countP_map]
  apply List.countP_congr
  intro x _
  by_cases hx : x.number = i.number <;> simp [hx]

/-- Creating an issue prepends exactly one issue carrying the requested
title, with the fresh number and node id the tracker assigns. -/
theorem create_issue_spec (st : RepoState) (t : JVal) (b : String)
    (labels : List JVal) (mt : JVal) :
    ∃ m st2, create_issue st t b labels mt =
        ((st.nextNodeId, st.nextIssueNumber), st2) ∧
      st2.issues = ⟨st.nextIssueNumber, st.nextNodeId, t, b, labels, m⟩ :: st.issues := by
  obtain ⟨hiss, hnum, hnid⟩ := get_or_create_milestone_preserves st mt
  refine ⟨(get_or_create_milestone st mt).1,
    { (get_or_create_milestone st mt).2 with
      issues := ⟨st.nextIssueNumber, st.nextNodeId, t, b, labels,
        (get_or_create_milestone st mt).1⟩ :: st.issues,
      nextIssueNumber := st.nextIssueNumber + 1,
      nextNodeId := st.nextNodeId + 1 }, ?_, rfl⟩
  simp only [create_issue, hiss, hnum, hnid]

/-- C1: the upsert is idempotent on title.  In a well-formed repository
(positive, duplicate-free issue numbers): (a) when an issue with exactly the
submitted title appears among the up-to-100 most-recent issues of the single
listing call, `process_github_issue` updates that issue, returning its
existing number and node id, and adds no issue; (b) when none appears, it
creates exactly one new issue; (c) hence submitting the same title twice
sequentially (starting from a repository without it) yields exactly one
issue with that title, the second invocation updating the first's issue and
returning the same number and node id. -/
theorem C1_upsert_idempotent_on_title (st : RepoState) (t : JVal) (b : String)
    (labels : List JVal) (mt : JVal) (hwf : RepoWF st) :
    (∀ i, (st.issues.take 100).find? (fun j => j.title == t) = some i →
       ∃ st2, process_github_issue st t b labels mt =
           (some (i.number, i.node_id), st2) ∧
         st2.issues.length = st.issues.length) ∧
    ((st.issues.take 100).find? (fun j => j.title == t) = none →
       ∃ st2, process_github_issue st t b labels mt =
           (some (st.nextIssueNumber, st.nextNodeId), st2) ∧
         st2.issues.length = st.issues.length + 1 ∧
         countIssuesTitled st2 t = countIssuesTitled st t + 1) ∧
    (countIssuesTitled st t = 0 →
       ∃ n nid st1 st2,
         process_github_issue st t b labels mt = (some (n, nid), st1) ∧
         process_github_issue st1 t b labels mt = (some (n, nid), st2) ∧
         countIssuesTitled st1 t = 1 ∧ countIssuesTitled st2 t = 1 ∧
         st2.issues.length = st1.issues.length) := by
  obtain ⟨hpos, hnext, hnodup⟩ := hwf
  refine ⟨?_, ?_, ?_⟩
  · -- (a) found in the listing: update, same length
    intro i hfind
    have hmem : i ∈ st.issues :=
      List.take_subset _ _ (List.mem_of_find?_eq_some hfind)
    have hne0 : (i.number != 0) = true :=
      bne_iff_ne.mpr (Nat.pos_iff_ne_zero.mp (hpos i hmem))
    have hfindnum : st.issues.find? (fun j => j.number == i.number) = some i := by
      cases hf2 : st.issues.find? (fun j => j.number == i.number) with
      | none =>
        exfalso
        have hni := List.find?_eq_none.mp hf2 i hmem
        simp at hni
      | some j =>
        have hjmem := List.mem_of_find?_eq_some hf2
        have hj := List.find?_some hf2
        have hji : j = i :=
          List.inj_on_of_nodup_map hnodup hjmem hmem (by simpa using hj)
        rw [hji]
    obtain ⟨st2, hupd, hlen, _⟩ := update_issue_found st i b labels mt hfindnum
    refine ⟨st2, ?_, hlen⟩
    simp only [process_github_issue, find_existing_issue_by_title, hfind,
      Option.map_some', hne0, if_true, hupd]
  · -- (b) not in the listing: create exactly one new issue
    intro hfind
    obtain ⟨m, st2, hcr, hiss⟩ := create_issue_spec st t b labels mt
    refine ⟨st2, ?_, ?_, ?_⟩
    · simp only [process_github_issue, find_existing_issue_by_title, hfind,
        Option.map_none', hcr]
    · rw [hiss]; simp
    · unfold countIssuesTitled
      rw [hiss, List.countP_cons]
      simp
  · -- (c) same title twice sequentially: one issue, second call updates it
    intro hcount
    have hfindnone : (st.issues.take 100).find? (fun j => j.title == t) = none := by
      cases hf : (st.issues.take 100).find? (fun j => j.title == t) with
      | none => rfl
      | some j =>
        exfalso
        have hjmem : j ∈ st.issues :=
          List.take_subset _ _ (List.mem_of_find?_eq_some hf)
        have hj := List.find?_some hf
        exact (List.countP_eq_zero.mp hcount j hjmem) hj
    obtain ⟨m, st1, hcr, hiss1⟩ := create_issue_spec st t b labels mt
    have hproc1 : process_github_issue st t b labels mt =
        (some (st.nextIssueNumber, st.nextNodeId), st1) := by
      simp only [process_github_issue, find_existing_issue_by_title, hfindnone,
        Option.map_none', hcr]
    have hcnt1 : countIssuesTitled st1 t = 1 := by
      unfold countIssuesTitled
      unfold countIssuesTitled at hcount
      rw [hiss1, List.countP_cons]
      simp [hcount]
    have hfind2 : (st1.issues.take 100).find? (fun j => j.title == t) =
        some ⟨st.nextIssueNumber, st.nextNodeId, t, b, labels, m⟩ := by
      rw [hiss1]
      exact find?_take_cons_of_pos _ _ (by simp)
    have hfindnum2 : st1.issues.find?
        (fun j => j.number ==
          (Issue.mk st.nextIssueNumber st.nextNodeId t b labels m).number) =
        some ⟨st.nextIssueNumber, st.nextNodeId, t, b, labels, m⟩ := by
      rw [hiss1]
      exact List.find?_cons_of_pos _ (by simp)
    have hne0 : ((Issue.mk st.nextIssueNumber st.nextNodeId t b labels m).number
        != 0) = true :=
      bne_iff_ne.mpr (Nat.pos_iff_ne_zero.mp hnext)
    obtain ⟨st2, hupd, hlen, hcnteq⟩ :=
      update_issue_found st1 ⟨st.nextIssueNumber, st.nextNodeId, t, b, labels, m⟩
        b labels mt hfindnum2
    refine ⟨st.nextIssueNumber, st.nextNodeId, st1, st2, hproc1, ?_, hcnt1, ?_, ?_⟩
    · simp only [process_github_issue, find_existing_issue_by_title, hfind2,
        Option.map_some', hne0, if_true, hupd]
    · rw [hcnteq t, hcnt1]
    · rw [hlen]

theorem C1_witness :
    RepoWF emptyRepoState ∧
    (∃ n nid st1 st2,
      process_github_issue emptyRepoState (.str "Add dark mode") "B"
        [.str "alice"] (.str "Q3") = (some (n, nid), st1) ∧
      process_github_issue st1 (.str "Add dark mode") "B"
        [.str "alice"] (.str "Q3") = (some (n, nid), st2) ∧
      countIssuesTitled st1 (.str "Add dark mode") = 1 ∧
      countIssuesTitled st2 (.str "Add dark mode") = 1 ∧
      st2.issues.length = st1.issues.length) :=
  ⟨⟨by decide, by decide, by decide⟩,
   (C1_upsert_idempotent_on_title emptyRepoState (.str "Add dark mode") "B"
      [.str "alice"] (.str "Q3") ⟨by decide, by decide, by decide⟩).2.2
     (by decide)⟩

/-! ### C7 and C4: end-to-end success and GraphQL link failure -/

/-- C7: on the spec's reference submission arriving as `Input/x.json` with
a fresh tracker and an error-free GraphQL response, the tag `" Video "`
normalizes to `"video"` and routes to the video target; the result is
`success` with the routed repo and issue number 1; the file moves from
`Input/x.json` to `Processed/x.json`; and the tracked issue carries labels
exactly `["alice", "video"]` in that order and a body holding the
`intent_goal` and `value` texts under their markdown headers. -/
theorem C7_end_to_end_success :
    pyStrip (pyLower " Video ") = "video" ∧
    (ROUTING envW).lookup "video" = some ⟨"acme", "video-repo", "PVT_vid"⟩ ∧
    (lambda_handler envW w7 ev7).1 = .success "acme/video-repo" 1 ∧
    (lambda_handler envW w7 ev7).2.s3objects.lookup "Processed/x.json" =
      some (.parsed submDarkMode) ∧
    (lambda_handler envW w7 ev7).2.s3objects.lookup "Input/x.json" = none ∧
    (getRepoState (lambda_handler envW w7 ev7).2.tracker
        ("acme", "video-repo")).issues =
      [⟨1, 1, .str "Add dark mode",
        "## 🎯 **Goal**\nReduce eye strain\n\n## 💎 **Value**\nImproves retention",
        [.str "alice", .str "video"], 1⟩] :=
  ⟨by decide, by decide, by decide, by decide, by decide, by decide⟩

/-- C4: a `errors` key in the project-link GraphQL response is a hard
failure regardless of transport status — with a non-empty `errors` array the
check raises and the whole invocation returns `failed` with the file moved
to `Invalid/`, one failure notification published, and the tracker left
holding the already-upserted issue (the upsert is not rolled back); a
response with no `errors` key present is never a failure. -/
theorem C4_graphql_errors_hard_failure (env : Env) (w : World) (ev : S3Event)
    (tok : String) (data : JVal) (s : String) (tgt : Target)
    (n nid : Nat) (st1 : RepoState) (e0 erest : JVal)
    (hsec : w.secret = .ok tok)
    (hstart : pyStartsWith ev.key "Input/" = true)
    (hend : pyEndsWith ev.key ".json" = true)
    (hobj : w.s3objects.lookup ev.key = some (.parsed data))
    (hval : validate data = .ok ())
    (htag : data.get? "tag" = some (.str s))
    (hroute : (ROUTING env).lookup (pyStrip (pyLower s)) = some tgt)
    (hproc : process_github_issue (getRepoState w.tracker (tgt.owner, tgt.repo))
        ((data.get? "title").getD .null) (build_issue_body data)
        [(data.get? "author").getD .null, .str (pyStrip (pyLower s))]
        ((data.get? "target_quarter").getD .null) = (some (n, nid), st1))
    (hgql : w.graphqlResponse.get? "errors" = some (.arrCons e0 erest)) :
    (∃ msg, add_issue_to_project_check w.graphqlResponse = .error msg) ∧
    (∀ res : JVal, res.get? "errors" = none →
       add_issue_to_project_check res = .ok ()) ∧
    (∃ msg w', lambda_handler env w ev = (.failed msg, w') ∧
       w'.s3objects.lookup ("Invalid/" ++ basename ev.key) = some (.parsed data) ∧
       w'.s3objects.lookup ev.key = none ∧
       getRepoState w'.tracker (tgt.owner, tgt.repo) = st1 ∧
       w'.notifications.length = w.notifications.length + 1) := by
  have hchk : add_issue_to_project_check w.graphqlResponse =
      .error ("GraphQL error: " ++ pyStr (.arrCons e0 erest)) := by
    simp only [add_issue_to_project_check, hgql]
  refine ⟨⟨_, hchk⟩, ?_, ?_⟩
  · intro res h
    simp only [add_issue_to_project_check, h]
  · have hfv : fetchAndValidate w.s3objects ev.key = .ok data := by
      simp only [fetchAndValidate, fetch_s3_json, hobj]
      rw [show validate data = _ from hval]
    have hmv := move_s3_file_some w.s3objects ev.key "Invalid/" hobj
    have hrun : lambda_handler env w ev =
        (.failed ("GraphQL error: " ++ pyStr (.arrCons e0 erest)),
         { w with
           tracker := setRepoState w.tracker (tgt.owner, tgt.repo) st1,
           notifications :=
             ("Error processing file: " ++ ev.key ++ "\nError: " ++
               ("GraphQL error: " ++ pyStr (.arrCons e0 erest)))
               :: w.notifications,
           s3objects := s3delete (s3write w.s3objects
             ("Invalid/" ++ basename ev.key) (.parsed data)) ev.key }) := by
      simp only [lambda_handler, get_github_token, hsec, hstart, hend, hfv, htag,
        hroute, hproc, hchk, hmv, Bool.not_true, Bool.or_self]
      rw [if_neg Bool.false_ne_true]
    rw [hrun]
    refine ⟨_, _, rfl, ?_, ?_, ?_, ?_⟩
    · exact moved_lookup_new _ _ _ _ (input_key_ne_invalid_dest ev.key _ hstart)
    · exact moved_lookup_gone _ _ _ _
    · exact getRepoState_set _ _ _
    · rfl

theorem C4_witness :
    (∃ msg, add_issue_to_project_check
        (.objCons "errors" (.arrCons (.str "boom") .arrNil) .objNil) =
        .error msg) ∧
    (∀ res : JVal, res.get? "errors" = none →
       add_issue_to_project_check res = .ok ()) ∧
    (∃ msg w', lambda_handler envW w4 ⟨"bkt", "Input/x.json"⟩ =
        (.failed msg, w') ∧
       w'.s3objects.lookup ("Invalid/" ++ basename "Input/x.json") =
         some (.parsed submDarkMode) ∧
       w'.s3objects.lookup "Input/x.json" = none ∧
       getRepoState w'.tracker ("acme", "video-repo") =
         ⟨[⟨1, 1, .str "Add dark mode",
            "## 🎯 **Goal**\nReduce eye strain\n\n## 💎 **Value**\nImproves retention",
            [.str "alice", .str "video"], 1⟩],
          [⟨1, .str "Q3"⟩], 2, 2, 2⟩ ∧
       w'.notifications.length = ([] : List String).length + 1) :=
  C4_graphql_errors_hard_failure envW w4 ⟨"bkt", "Input/x.json"⟩ "tok"
    submDarkMode " Video " ⟨"acme", "video-repo", "PVT_vid"⟩ 1 1
    ⟨[⟨1, 1, .str "Add dark mode",
       "## 🎯 **Goal**\nReduce eye strain\n\n## 💎 **Value**\nImproves retention",
       [.str "alice", .str "video"], 1⟩],
     [⟨1, .str "Q3"⟩], 2, 2, 2⟩
    (.str "boom") .arrNil (by decide) (by decide) (by decide) (by decide) (by decide)
    (by decide) (by decide) (by decide) (by decide)

end ReleaseTracker
